import Mathlib

/-!
Shallow embedding of `src/sync/realtime_channel.rs` from the realtime-rs
repository: the per-channel join/leave state machine, the inbound dispatch
loop spawned by `RealtimeChannel::start_thread`, the outbound send path
(`send`, `track`, `unsubscribe`) and the channel builder.

Rust values are modelled as plain Lean data: `HashMap<String, Value>`
becomes an association list, callback closures become numeric callback
identifiers, and every callback invocation performed by the dispatch loop
is recorded in an explicit `Fired` event list.  Async functions become
pure state-passing functions that also return the list of messages pushed
onto the shared outbound sender (`client_tx`).

The message/payload data types (`message/payload.rs`, `message/mod.rs`),
the presence types (`message/presence.rs`) and `PostgresChangeFilter::check`
are not part of the provided sources; they are modelled from the spec and
marked as such in their doc comments.
-/

namespace RealtimeRs

/-- Channel states, translated from `enum ChannelState` in
`realtime_channel.rs`. -/
inductive ChannelState where
  | Closed
  | Errored
  | Joined
  | Joining
  | Leaving
deriving DecidableEq, Repr

/-- Modelled from the spec: the status field of a `Response` payload;
success (`Ok`) versus failure. -/
inductive PayloadStatus where
  | ok
  | error
deriving DecidableEq, Repr

/-- Modelled from the spec: the event kinds of an envelope (join-request,
leave-request, reply, broadcast, postgres-changes push, presence track /
untrack, presence state / diff pushes, access-token update). -/
inductive MessageEvent where
  | phxJoin
  | phxLeave
  | phxReply
  | phxClose
  | broadcast
  | postgresChanges
  | presence
  | untrack
  | presenceState
  | presenceDiff
  | accessToken
deriving DecidableEq, Repr

/-- Modelled from the spec: CDC change kinds, the registry keys used by
`cdc_callbacks`; `All` is the wildcard "all events" key. -/
inductive PostgresChangesEvent where
  | All
  | Insert
  | Update
  | Delete
deriving DecidableEq, Repr

/-- A `HashMap<String, Value>` of opaque JSON values, modelled as an
association list with the values kept abstract as strings. -/
abbrev Fields := List (String × String)

/-- Modelled from the spec: the metadata of an incoming `PostgresChange`
payload that the filter matcher inspects (change kind, schema, table,
and the optional column-filter expression echoed by the server). -/
structure PostgresChangesData where
  change_type : PostgresChangesEvent
  schema : String
  table : String
  filterMeta : Option String
deriving DecidableEq, Repr

/-- Modelled from the spec: the payload of a `PostgresChange` envelope;
the dispatch loop reads `payload.data.change_type`. -/
structure PostgresChangesPayload where
  data : PostgresChangesData
deriving DecidableEq, Repr

/-- Modelled from the spec: a broadcast payload, an event name plus the
field map handed to broadcast callbacks. -/
structure BroadcastPayload where
  event : String
  payload : Fields
deriving DecidableEq, Repr

/-- Modelled from the spec: the payload of a reply (`Response`) envelope;
the correlation ref travels on the envelope's `message_ref`. -/
structure ResponsePayload where
  status : PayloadStatus
deriving DecidableEq, Repr

/-- Presence state: a map from presence key to an ordered collection of
per-client metadata records, modelled as an association list. -/
abbrev PresenceState := List (String × List Fields)

/-- Modelled from the spec: a full presence snapshot push. -/
structure RawPresenceState where
  state : PresenceState
deriving DecidableEq, Repr

/-- Modelled from the spec: an incremental presence patch. -/
structure RawPresenceDiff where
  joins : PresenceState
  leaves : PresenceState
deriving DecidableEq, Repr

/-- Modelled from the spec: the closed payload variant set of an envelope. -/
inductive Payload where
  | join (accessToken : String)
  | response (r : ResponsePayload)
  | broadcast (b : BroadcastPayload)
  | postgresChanges (p : PostgresChangesPayload)
  | presenceState (s : RawPresenceState)
  | presenceDiff (d : RawPresenceDiff)
  | presenceTrack (fields : Fields)
  | accessToken (token : String)
  | empty
deriving DecidableEq, Repr

/-- The envelope, translated from `RealtimeMessage` as used in
`realtime_channel.rs`: event, topic, payload, optional correlation ref. -/
structure RealtimeMessage where
  event : MessageEvent
  topic : String
  payload : Payload
  message_ref : Option String
deriving DecidableEq, Repr

/-- CDC filter, modelled from the spec and the fields used by
`on_postgres_change`: schema, optional table, optional column filter. -/
structure PostgresChangeFilter where
  schema : String
  table : Option String
  filter : Option String
deriving DecidableEq, Repr

/-- Modelled from the spec: `PostgresChangeFilter::check` (§4.3), a pure
match: schema must equal exactly, table must equal exactly unless the
filter's table is absent or the empty sentinel (meaning any table), and
the optional column predicate must be satisfied by the change's metadata
(abstracted as equality on the echoed filter expression).  Returns `true`
when the filter accepts the message; a non-CDC message is never accepted. -/
def PostgresChangeFilter.check (f : PostgresChangeFilter) (msg : RealtimeMessage) : Bool :=
  match msg.payload with
  | Payload.postgresChanges p =>
      f.schema == p.data.schema
      && (match f.table with
          | none => true
          | some t => t == "" || t == p.data.table)
      && (match f.filter with
          | none => true
          | some fe => p.data.filterMeta == some fe)
  | _ => false

/-- A registered CDC callback: its filter plus a numeric identifier
standing in for the boxed closure. -/
abbrev CdcCallback := PostgresChangeFilter × Nat

/-- The CDC callback registry, `HashMap<PostgresChangesEvent, Vec<CdcCallback>>`
modelled as an association list. -/
abbrev CdcRegistry := List (PostgresChangesEvent × List CdcCallback)

/-- The broadcast callback registry, `HashMap<String, Vec<BroadcastCallback>>`
modelled as an association list of callback identifiers. -/
abbrev BroadcastRegistry := List (String × List Nat)

/-- `HashMap::get` on an association-list registry: the vector stored
under the key, or the empty list when the key is absent (the dispatch
loop skips the whole block when `get_mut` returns `None`, which is
behaviourally the empty iteration). -/
def lookupReg {α β : Type} [DecidableEq α] (reg : List (α × List β)) (k : α) : List β :=
  match reg.find? (fun e => decide (e.1 = k)) with
  | some e => e.2
  | none => []

/-- An observable effect of one dispatch-loop iteration: a broadcast
callback invocation, a CDC callback invocation (recorded with the
registry key and index it was found under, plus its identifier), or the
catch-all diagnostic print for an unmatched payload. -/
inductive Fired where
  | broadcastCb (event : String) (cbId : Nat) (payload : Fields)
  | cdcCb (key : PostgresChangesEvent) (index : Nat) (cbId : Nat)
  | unmatched
deriving DecidableEq, Repr

/-- One pass of the CDC dispatch inner loop: walk the callback vector
registered under key `k`, skip entries whose filter rejects the message,
and invoke the rest in order.  The index argument records the position in
the vector, mirroring iteration order. -/
def firedUnderAux (k : PostgresChangesEvent) (msg : RealtimeMessage) :
    Nat → List CdcCallback → List Fired
  | _, [] => []
  | i, cb :: rest =>
      (if cb.1.check msg then [Fired.cdcCb k i cb.2] else [])
        ++ firedUnderAux k msg (i + 1) rest

/-- The callbacks fired from the vector registered under key `k`. -/
def firedUnder (k : PostgresChangesEvent) (cdc : CdcRegistry) (msg : RealtimeMessage) :
    List Fired :=
  firedUnderAux k msg 0 (lookupReg cdc k)

/-- The `Payload::PostgresChanges` arm of the dispatch loop: first the
pass over the callbacks registered under the payload's own change type,
then the pass over the callbacks registered under the wildcard `All` key,
each under the same filter check. -/
def dispatchPostgres (cdc : CdcRegistry) (msg : RealtimeMessage)
    (p : PostgresChangesPayload) : List Fired :=
  firedUnder p.data.change_type cdc msg ++ firedUnder PostgresChangesEvent.All cdc msg

/-- The `Payload::Broadcast` arm of the dispatch loop: every callback
registered under the payload's event name fires with the payload's field
map, with no further filtering. -/
def dispatchBroadcast (bc : BroadcastRegistry) (b : BroadcastPayload) : List Fired :=
  (lookupReg bc b.event).map (fun cbId => Fired.broadcastCb b.event cbId b.payload)

/-- Control flow after one dispatch-loop iteration: continue with the
next queued message, or `return` out of the spawned task. -/
inductive Control where
  | cont
  | ret
deriving DecidableEq, Repr

/-- One iteration of the dispatch loop spawned by
`RealtimeChannel::start_thread`, on an already decoded message: branch on
the payload variant.  `Broadcast` and `PostgresChanges` fire callbacks;
`Response` compares the envelope's `message_ref` (default `""`) with the
channel id and, on mismatch, executes `return` (ending the task), while
on a match with `Ok` status it overwrites the channel state with
`Joined`; every other payload variant falls into the catch-all arm that
prints the unmatched-payload diagnostic and touches nothing. -/
def processMessage (id : String) (cdc : CdcRegistry) (bc : BroadcastRegistry)
    (st : ChannelState) (msg : RealtimeMessage) :
    ChannelState × List Fired × Control :=
  match msg.payload with
  | Payload.broadcast b => (st, dispatchBroadcast bc b, Control.cont)
  | Payload.postgresChanges p => (st, dispatchPostgres cdc msg p, Control.cont)
  | Payload.response r =>
      let target := msg.message_ref.getD ""
      if target ≠ id then
        (st, [], Control.ret)
      else if r.status = PayloadStatus.ok then
        (ChannelState.Joined, [], Control.cont)
      else
        (st, [], Control.cont)
  | _ => (st, [Fired.unmatched], Control.cont)

/-- Result of running the dispatch loop over a queue of raw frames:
`panicked` when a frame failed to decode (the two `unwrap`s on the decode
path), `returned` when a non-matching `Response` ref executed `return`,
`finished` when the queue was drained; the first two carry the unprocessed
remainder of the queue. -/
inductive LoopResult where
  | panicked (st : ChannelState) (fired : List Fired) (rest : List (Option RealtimeMessage))
  | returned (st : ChannelState) (fired : List Fired) (rest : List (Option RealtimeMessage))
  | finished (st : ChannelState) (fired : List Fired)
deriving DecidableEq, Repr

/-- The dispatch loop of `RealtimeChannel::start_thread` over a finite
queue of inbound frames.  A frame is the decode result of
`serde_json::from_str(message.to_text().unwrap())`: `none` models a frame
whose text or JSON decoding fails, on which the source's `.unwrap()`
panics and the task dies. -/
def runLoop (id : String) (cdc : CdcRegistry) (bc : BroadcastRegistry) :
    ChannelState → List (Option RealtimeMessage) → LoopResult
  | st, [] => LoopResult.finished st []
  | st, none :: rest => LoopResult.panicked st [] rest
  | st, some msg :: rest =>
      match processMessage id cdc bc st msg with
      | (st1, fired1, Control.ret) => LoopResult.returned st1 fired1 rest
      | (st1, fired1, Control.cont) =>
          match runLoop id cdc bc st1 rest with
          | LoopResult.finished st2 fired2 => LoopResult.finished st2 (fired1 ++ fired2)
          | LoopResult.panicked st2 fired2 r => LoopResult.panicked st2 (fired1 ++ fired2) r
          | LoopResult.returned st2 fired2 r => LoopResult.returned st2 (fired1 ++ fired2) r

/-- Errors of the channel send path, translated from `ChannelSendError`. -/
inductive ChannelSendError where
  | noChannel
  | sendError (m : RealtimeMessage)
  | channelError (s : ChannelState)
deriving DecidableEq, Repr

/-- The channel, translated from `struct RealtimeChannel`: topic, state,
id (the Uuid rendered as a string, as the dispatch loop compares it),
the two callback registries, the presence engine state, and `txOk`
modelling whether the receiving end of the shared outbound sender
`client_tx` is still alive (an mpsc send fails exactly when it is not). -/
structure RealtimeChannel where
  topic : String
  state : ChannelState
  id : String
  cdc_callbacks : CdcRegistry
  broadcast_callbacks : BroadcastRegistry
  presence : PresenceState
  txOk : Bool
deriving DecidableEq, Repr

/-- `RealtimeChannel::send`: clone the message, overwrite its topic with
the channel's own topic, refuse with `ChannelError(state)` while the
state is `Leaving`, otherwise push onto `client_tx`, wrapping a failed
push as `SendError`.  The second component is the list of messages that
reached the outbound sender. -/
def RealtimeChannel.send (ch : RealtimeChannel) (message : RealtimeMessage) :
    Except ChannelSendError Unit × List RealtimeMessage :=
  let message := { message with topic := ch.topic }
  if ch.state = ChannelState.Leaving then
    (Except.error (ChannelSendError.channelError ch.state), [])
  else if ch.txOk then
    (Except.ok (), [message])
  else
    (Except.error (ChannelSendError.sendError message), [])

/-- `RealtimeChannel::track`: the source builds the `PresenceTrack`
message and calls the async `send` from a non-async fn without awaiting
(`let _ = self.send(...)`), so the returned future is dropped unpolled:
the body of `send` never runs and nothing reaches the outbound sender.
Only `self` is returned for call chaining. -/
def RealtimeChannel.track (ch : RealtimeChannel) (_payload : Fields) :
    RealtimeChannel × List RealtimeMessage :=
  (ch, [])

/-- `RealtimeChannel::presence_state`: a clone of the presence engine's
current state. -/
def RealtimeChannel.presence_state (ch : RealtimeChannel) : PresenceState :=
  ch.presence

/-- `RealtimeChannel::unsubscribe`: an early return of the current state
when it is already `Closed` or `Leaving`; otherwise send the leave
envelope correlated by `"id+leave"` and transition to `Leaving` on
success, swallow a `ChannelError` into the returned state, and propagate
any other send error.  (In the source the state lock is held across the
nested `send`; the sequential semantics of the non-early-return branch is
modelled as written.) -/
def RealtimeChannel.unsubscribe (ch : RealtimeChannel) :
    Except ChannelSendError ChannelState × RealtimeChannel × List RealtimeMessage :=
  if ch.state = ChannelState.Closed ∨ ch.state = ChannelState.Leaving then
    (Except.ok ch.state, ch, [])
  else
    let leaveMessage : RealtimeMessage :=
      { event := MessageEvent.phxLeave
        topic := ch.topic
        payload := Payload.empty
        message_ref := some (ch.id ++ "+leave") }
    match ch.send leaveMessage with
    | (Except.ok _, out) =>
        (Except.ok ChannelState.Leaving, { ch with state := ChannelState.Leaving }, out)
    | (Except.error (ChannelSendError.channelError s), out) => (Except.ok s, ch, out)
    | (Except.error e, out) => (Except.error e, ch, out)

/-- The channel builder, translated from `struct RealtimeChannelBuilder`
restricted to the fields the claims touch. -/
structure RealtimeChannelBuilder where
  topic : String
  id : String
  cdc_callbacks : CdcRegistry
  broadcast_callbacks : BroadcastRegistry
deriving DecidableEq, Repr

/-- `RealtimeChannelBuilder::topic` (named `setTopic` here because the
field projection already takes the name): stores
`format!("realtime:topic")`, prepending the `realtime:` namespace
to the caller's topic string. -/
def RealtimeChannelBuilder.setTopic (b : RealtimeChannelBuilder) (t : String) :
    RealtimeChannelBuilder :=
  { b with topic := "realtime:" ++ t }

/-- `RealtimeChannelBuilder::build`: assemble the channel with the stored
topic and registries, initial state `Closed`, and an empty presence
state; `txOk` carries the liveness of the client sender handed over by
the client. -/
def RealtimeChannelBuilder.build (b : RealtimeChannelBuilder) (txOk : Bool) :
    RealtimeChannel :=
  { topic := b.topic
    state := ChannelState.Closed
    id := b.id
    cdc_callbacks := b.cdc_callbacks
    broadcast_callbacks := b.broadcast_callbacks
    presence := []
    txOk := txOk }

end RealtimeRs

namespace RealtimeRs

/-- Every message that `send` pushes onto the outbound sender carries the
channel's own topic (shared helper for the send-path claims). -/
theorem send_topic (ch : RealtimeChannel) (msg : RealtimeMessage) :
    ∀ m ∈ (ch.send msg).2, m.topic = ch.topic := by
  intro m hm
  by_cases hs : ch.state = ChannelState.Leaving
  · simp [RealtimeChannel.send, hs] at hm
  · by_cases ht : ch.txOk
    · simp [RealtimeChannel.send, hs, ht] at hm
      simp [hm]
    · simp [RealtimeChannel.send, hs, ht] at hm

end RealtimeRs

namespace RealtimeRs

/-- C1: evaluating `track` on a built, joined channel on topic
`realtime:room:1` with fields `x = 1`: the call returns the unchanged
channel handle and pushes nothing onto the outbound sender, because the
source drops the unawaited `send` future — contrary to the claim that
exactly one `PresenceTrack` envelope is produced. -/
theorem c1_track_enqueues_nothing :
    RealtimeChannel.track
      { topic := "realtime:room:1", state := ChannelState.Joined, id := "chan-1",
        cdc_callbacks := [], broadcast_callbacks := [], presence := [], txOk := true }
      [("x", "1")]
      = ({ topic := "realtime:room:1", state := ChannelState.Joined, id := "chan-1",
           cdc_callbacks := [], broadcast_callbacks := [], presence := [], txOk := true }, []) :=
  rfl

/-- C2: a `PresenceState` or `PresenceDiff` payload delivered to the
dispatch loop falls into the catch-all arm: the channel state is
untouched, no callback fires, and only the unmatched-payload diagnostic
is produced — the Presence Engine is never invoked, so the presence map
and presence callbacks cannot reflect the update. -/
theorem c2_presence_payload_hits_catch_all :
    ∀ (id : String) (cdc : CdcRegistry) (bc : BroadcastRegistry) (st : ChannelState)
      (msg : RealtimeMessage),
    ((∃ s, msg.payload = Payload.presenceState s) ∨
      (∃ d, msg.payload = Payload.presenceDiff d)) →
    processMessage id cdc bc st msg = (st, [Fired.unmatched], Control.cont) := by
  intro id cdc bc st msg h
  rcases h with ⟨s, hp⟩ | ⟨d, hp⟩ <;> simp [processMessage, hp]

/-- C2 witness: a concrete presence snapshot push is dispatched to the
catch-all arm with no effect. -/
theorem c2_presence_payload_hits_catch_all_witness :
    processMessage "chan-1" [] [] ChannelState.Joined
      { event := MessageEvent.presenceState, topic := "realtime:room:1",
        payload := Payload.presenceState { state := [("alice", [[("x", "1")]])] },
        message_ref := none }
      = (ChannelState.Joined, [Fired.unmatched], Control.cont) :=
  c2_presence_payload_hits_catch_all "chan-1" [] [] ChannelState.Joined _ (Or.inl ⟨_, rfl⟩)

/-- C3 counterexample: a success `Response` whose ref matches the channel
id, processed while the state is `Closed` (not `Joining`), still rewrites
the state to `Joined` — refuting the claim that the state is left
unchanged whenever it is anything other than `Joining`. -/
theorem c3_counterexample :
    processMessage "chan-1" [] [] ChannelState.Closed
      { event := MessageEvent.phxReply, topic := "realtime:room:1",
        payload := Payload.response { status := PayloadStatus.ok },
        message_ref := some "chan-1" }
      = (ChannelState.Joined, [], Control.cont) ∧
    (ChannelState.Closed : ChannelState) ≠ ChannelState.Joined := by
  constructor
  · decide
  · decide

/-- C3 amended: a `Response` envelope whose correlation ref equals the
channel's id sets the state to `Joined` whenever its status is success,
regardless of the current state (in particular `Joining → Joined`), and
leaves the state unchanged when the status is not success; no callback
fires and the loop continues. -/
theorem c3_matching_response_transition :
    ∀ (id : String) (cdc : CdcRegistry) (bc : BroadcastRegistry) (st : ChannelState)
      (msg : RealtimeMessage) (r : ResponsePayload),
    msg.payload = Payload.response r →
    msg.message_ref.getD "" = id →
    processMessage id cdc bc st msg =
      ((if r.status = PayloadStatus.ok then ChannelState.Joined else st), [],
        Control.cont) := by
  intro id cdc bc st msg r hp hr
  simp [processMessage, hp, hr]
  split <;> rfl

/-- C3 amended witness: a matching success reply received while `Joining`
transitions the concrete channel to `Joined`. -/
theorem c3_matching_response_transition_witness :
    processMessage "chan-1" [] [] ChannelState.Joining
      { event := MessageEvent.phxReply, topic := "realtime:room:1",
        payload := Payload.response { status := PayloadStatus.ok },
        message_ref := some "chan-1" }
      = ((if (PayloadStatus.ok : PayloadStatus) = PayloadStatus.ok then ChannelState.Joined
          else ChannelState.Joining), [], Control.cont) :=
  c3_matching_response_transition "chan-1" [] [] ChannelState.Joining _ _ rfl rfl

/-- C4: a frame whose text fails to decode into an envelope makes the
dispatch loop panic at the `unwrap` and the task dies, leaving the rest
of the queue unprocessed — the decode step is not total over arbitrary
frames, contrary to the claim. -/
theorem c4_decode_failure_kills_loop :
    ∀ (id : String) (cdc : CdcRegistry) (bc : BroadcastRegistry) (st : ChannelState)
      (rest : List (Option RealtimeMessage)),
    runLoop id cdc bc st (none :: rest) = LoopResult.panicked st [] rest := by
  intro id cdc bc st rest
  rfl

/-- C6: processing a `Response` envelope whose correlation ref does not
equal the channel's id leaves the channel state exactly as it was and
fires no callback. -/
theorem c6_nonmatching_response_preserves_state :
    ∀ (id : String) (cdc : CdcRegistry) (bc : BroadcastRegistry) (st : ChannelState)
      (msg : RealtimeMessage) (r : ResponsePayload),
    msg.payload = Payload.response r →
    msg.message_ref.getD "" ≠ id →
    (processMessage id cdc bc st msg).1 = st ∧
      (processMessage id cdc bc st msg).2.1 = [] := by
  intro id cdc bc st msg r hp hr
  simp [processMessage, hp, hr]

/-- C6 witness: a reply correlated to a different in-flight request (the
leave ref of the same channel) leaves a concrete `Joining` state intact. -/
theorem c6_nonmatching_response_preserves_state_witness :
    (processMessage "chan-1" [] [] ChannelState.Joining
      { event := MessageEvent.phxReply, topic := "realtime:room:1",
        payload := Payload.response { status := PayloadStatus.ok },
        message_ref := some "chan-1+leave" }).1 = ChannelState.Joining ∧
    (processMessage "chan-1" [] [] ChannelState.Joining
      { event := MessageEvent.phxReply, topic := "realtime:room:1",
        payload := Payload.response { status := PayloadStatus.ok },
        message_ref := some "chan-1+leave" }).2.1 = [] :=
  c6_nonmatching_response_preserves_state "chan-1" [] [] ChannelState.Joining _ _ rfl
    (by decide)

/-- C7: calling `unsubscribe` on a channel whose state is already
`Closed` or `Leaving` returns that same state, changes no field of the
channel, and enqueues nothing on the outbound sender. -/
theorem c7_unsubscribe_idempotent :
    ∀ ch : RealtimeChannel,
    ch.state = ChannelState.Closed ∨ ch.state = ChannelState.Leaving →
    ch.unsubscribe = (Except.ok ch.state, ch, []) := by
  intro ch h
  unfold RealtimeChannel.unsubscribe
  rw [if_pos h]

/-- C7 witness: a concrete channel already in `Closed` is returned
unchanged with no outbound send. -/
theorem c7_unsubscribe_idempotent_witness :
    RealtimeChannel.unsubscribe
      { topic := "realtime:room:1", state := ChannelState.Closed, id := "chan-1",
        cdc_callbacks := [], broadcast_callbacks := [], presence := [], txOk := true }
      = (Except.ok ChannelState.Closed,
         { topic := "realtime:room:1", state := ChannelState.Closed, id := "chan-1",
           cdc_callbacks := [], broadcast_callbacks := [], presence := [], txOk := true },
         []) :=
  c7_unsubscribe_idempotent _ (Or.inl rfl)

/-- C8: `send` rewrites the envelope's topic to the channel's own topic
before transmission; while `Leaving` it returns `ChannelError(Leaving)`
and enqueues nothing; otherwise it forwards the rewritten envelope when
the outbound sender is alive, and wraps a dead-sender failure as
`SendError` (as a returned value — the Lean model is total, no panic). -/
theorem c8_send_behaviour :
    ∀ (ch : RealtimeChannel) (msg : RealtimeMessage),
    (∀ m ∈ (ch.send msg).2, m.topic = ch.topic) ∧
    (ch.state = ChannelState.Leaving →
      ch.send msg = (Except.error (ChannelSendError.channelError ChannelState.Leaving), [])) ∧
    (ch.state ≠ ChannelState.Leaving → ch.txOk = true →
      ch.send msg = (Except.ok (), [{ msg with topic := ch.topic }])) ∧
    (ch.state ≠ ChannelState.Leaving → ch.txOk = false →
      ch.send msg =
        (Except.error (ChannelSendError.sendError { msg with topic := ch.topic }), [])) := by
  intro ch msg
  refine ⟨send_topic ch msg, ?_, ?_, ?_⟩
  · intro hs
    simp [RealtimeChannel.send, hs]
  · intro hs ht
    simp [RealtimeChannel.send, hs, ht]
  · intro hs ht
    simp [RealtimeChannel.send, hs, ht]

/-- C8 witness: the behaviour instantiated at a concrete joined channel
and an envelope carrying a spoofed topic. -/
theorem c8_send_behaviour_witness :
    (∀ m ∈ (RealtimeChannel.send
        { topic := "realtime:room:1", state := ChannelState.Joined, id := "chan-1",
          cdc_callbacks := [], broadcast_callbacks := [], presence := [], txOk := true }
        { event := MessageEvent.broadcast, topic := "spoofed", payload := Payload.empty,
          message_ref := none }).2,
      m.topic = "realtime:room:1") ∧
    (ChannelState.Joined = ChannelState.Leaving →
      RealtimeChannel.send
        { topic := "realtime:room:1", state := ChannelState.Joined, id := "chan-1",
          cdc_callbacks := [], broadcast_callbacks := [], presence := [], txOk := true }
        { event := MessageEvent.broadcast, topic := "spoofed", payload := Payload.empty,
          message_ref := none }
        = (Except.error (ChannelSendError.channelError ChannelState.Leaving), [])) ∧
    (ChannelState.Joined ≠ ChannelState.Leaving → true = true →
      RealtimeChannel.send
        { topic := "realtime:room:1", state := ChannelState.Joined, id := "chan-1",
          cdc_callbacks := [], broadcast_callbacks := [], presence := [], txOk := true }
        { event := MessageEvent.broadcast, topic := "spoofed", payload := Payload.empty,
          message_ref := none }
        = (Except.ok (),
           [{ event := MessageEvent.broadcast, topic := "realtime:room:1",
              payload := Payload.empty, message_ref := none }])) ∧
    (ChannelState.Joined ≠ ChannelState.Leaving → true = false →
      RealtimeChannel.send
        { topic := "realtime:room:1", state := ChannelState.Joined, id := "chan-1",
          cdc_callbacks := [], broadcast_callbacks := [], presence := [], txOk := true }
        { event := MessageEvent.broadcast, topic := "spoofed", payload := Payload.empty,
          message_ref := none }
        = (Except.error (ChannelSendError.sendError
            { event := MessageEvent.broadcast, topic := "realtime:room:1",
              payload := Payload.empty, message_ref := none }), [])) :=
  c8_send_behaviour
    { topic := "realtime:room:1", state := ChannelState.Joined, id := "chan-1",
      cdc_callbacks := [], broadcast_callbacks := [], presence := [], txOk := true }
    { event := MessageEvent.broadcast, topic := "spoofed", payload := Payload.empty,
      message_ref := none }

/-- C10: configuring the builder with `topic t` stores the topic
`realtime:` prepended to `t`, the built channel carries that topic, and
every envelope the channel's `send` pushes outbound carries it as well. -/
theorem c10_builder_topic_namespaced :
    ∀ (b : RealtimeChannelBuilder) (t : String) (txOk : Bool) (msg : RealtimeMessage),
    ((b.setTopic t).build txOk).topic = "realtime:" ++ t ∧
    (∀ ch : RealtimeChannel, ch.topic = "realtime:" ++ t →
      ∀ m ∈ (ch.send msg).2, m.topic = "realtime:" ++ t) := by
  intro b t txOk msg
  constructor
  · rfl
  · intro ch hch m hm
    rw [← hch]
    exact send_topic ch msg m hm

/-- C10 witness: the instantiation at a concrete builder, topic
`room:1`, and a message sent through the built channel. -/
theorem c10_builder_topic_namespaced_witness :
    ((RealtimeChannelBuilder.setTopic
        { topic := "no_topic", id := "chan-1", cdc_callbacks := [], broadcast_callbacks := [] }
        "room:1").build true).topic = "realtime:" ++ "room:1" ∧
    (∀ ch : RealtimeChannel, ch.topic = "realtime:" ++ "room:1" →
      ∀ m ∈ (ch.send
          { event := MessageEvent.broadcast, topic := "spoofed", payload := Payload.empty,
            message_ref := none }).2,
        m.topic = "realtime:" ++ "room:1") :=
  c10_builder_topic_namespaced
    { topic := "no_topic", id := "chan-1", cdc_callbacks := [], broadcast_callbacks := [] }
    "room:1" true
    { event := MessageEvent.broadcast, topic := "spoofed", payload := Payload.empty,
      message_ref := none }

end RealtimeRs

namespace RealtimeRs

/-- C5: once the dispatch loop hits a `Response` envelope whose
correlation ref does not equal the channel's id, the spawned task
executes `return`: the loop ends with exactly the state and callback
firings accumulated before that message, and every envelope queued after
it is left unprocessed (it reappears verbatim as the untouched
remainder). -/
theorem c5_nonmatching_response_halts_loop :
    ∀ (id : String) (cdc : CdcRegistry) (bc : BroadcastRegistry)
      (pre : List (Option RealtimeMessage)) (st st' : ChannelState) (fired : List Fired)
      (msg : RealtimeMessage) (r : ResponsePayload) (post : List (Option RealtimeMessage)),
    msg.payload = Payload.response r →
    msg.message_ref.getD "" ≠ id →
    runLoop id cdc bc st pre = LoopResult.finished st' fired →
    runLoop id cdc bc st (pre ++ some msg :: post) = LoopResult.returned st' fired post := by
  intro id cdc bc pre
  induction pre with
  | nil =>
      intro st st' fired msg r post hp hr h
      have hpm : processMessage id cdc bc st msg = (st, [], Control.ret) := by
        simp [processMessage, hp, hr]
      simp only [runLoop] at h
      injection h with h1 h2
      subst h1
      subst h2
      simp [runLoop, hpm]
  | cons f pre ih =>
      intro st st' fired msg r post hp hr h
      match f with
      | none => simp [runLoop] at h
      | some m =>
          rcases hpm : processMessage id cdc bc st m with ⟨st1, fired1, ctl⟩
          cases ctl with
          | ret =>
              simp only [runLoop, hpm] at h
              exact LoopResult.noConfusion h
          | cont =>
              simp only [runLoop, hpm] at h
              cases hrl : runLoop id cdc bc st1 pre with
              | panicked st2 fired2 r2 =>
                  rw [hrl] at h
                  exact LoopResult.noConfusion h
              | returned st2 fired2 r2 =>
                  rw [hrl] at h
                  exact LoopResult.noConfusion h
              | finished st2 fired2 =>
                  rw [hrl] at h
                  injection h with h1 h2
                  subst h1
                  subst h2
                  have hstep := ih st1 st2 fired2 msg r post hp hr hrl
                  simp only [List.cons_append, runLoop, hpm, List.append_eq, hstep]

end RealtimeRs

namespace RealtimeRs

/-- C5 witness: after one ordinary message (a presence push hitting the
catch-all arm), a reply correlated to a different channel ends the loop;
the queued later envelope is left unprocessed. -/
theorem c5_nonmatching_response_halts_loop_witness :
    runLoop "chan-1" [] [] ChannelState.Joining
      ([some { event := MessageEvent.presenceState, topic := "realtime:room:1",
               payload := Payload.presenceState { state := [] }, message_ref := none }] ++
        some { event := MessageEvent.phxReply, topic := "realtime:room:1",
               payload := Payload.response { status := PayloadStatus.ok },
               message_ref := some "chan-2" } ::
          [some { event := MessageEvent.broadcast, topic := "realtime:room:1",
                  payload := Payload.broadcast { event := "cursor", payload := [] },
                  message_ref := none }])
      = LoopResult.returned ChannelState.Joining [Fired.unmatched]
          [some { event := MessageEvent.broadcast, topic := "realtime:room:1",
                  payload := Payload.broadcast { event := "cursor", payload := [] },
                  message_ref := none }] :=
  c5_nonmatching_response_halts_loop "chan-1" [] []
    [some { event := MessageEvent.presenceState, topic := "realtime:room:1",
            payload := Payload.presenceState { state := [] }, message_ref := none }]
    ChannelState.Joining ChannelState.Joining [Fired.unmatched]
    { event := MessageEvent.phxReply, topic := "realtime:room:1",
      payload := Payload.response { status := PayloadStatus.ok },
      message_ref := some "chan-2" }
    { status := PayloadStatus.ok }
    [some { event := MessageEvent.broadcast, topic := "realtime:room:1",
            payload := Payload.broadcast { event := "cursor", payload := [] },
            message_ref := none }]
    rfl (by decide) (by decide)

/-- Characterization of one CDC dispatch pass starting at index `i`: an
invocation is recorded for key `k` at index `i + m` exactly when the
callback vector holds, at position `m`, a filter accepting the message
paired with that callback identifier. -/
theorem mem_firedUnderAux_iff (k : PostgresChangesEvent) (msg : RealtimeMessage)
    (i : Nat) (l : List CdcCallback) (c : Fired) :
    c ∈ firedUnderAux k msg i l ↔
      ∃ m f cbId, c = Fired.cdcCb k (i + m) cbId ∧
        l.get? m = some (f, cbId) ∧ f.check msg = true := by
  induction l generalizing i with
  | nil => simp [firedUnderAux]
  | cons cb rest ih =>
      simp only [firedUnderAux, List.mem_append]
      constructor
      · intro hc
        rcases hc with h1 | h2
        · by_cases hchk : cb.1.check msg
          · rw [if_pos hchk] at h1
            simp only [List.mem_singleton] at h1
            exact ⟨0, cb.1, cb.2, by simpa using h1, by simp, hchk⟩
          · rw [if_neg hchk] at h1
            simp at h1
        · rcases (ih (i + 1)).mp h2 with ⟨m, f, cbId, hc, hget, hchk⟩
          refine ⟨m + 1, f, cbId, ?_, by simpa using hget, hchk⟩
          rw [hc]
          congr 1
          omega
      · rintro ⟨m, f, cbId, hc, hget, hchk⟩
        cases m with
        | zero =>
            have hcb : cb = (f, cbId) := by simpa using hget
            subst hcb
            left
            rw [if_pos hchk]
            simp [hc]
        | succ m =>
            right
            apply (ih (i + 1)).mpr
            refine ⟨m, f, cbId, ?_, by simpa using hget, hchk⟩
            rw [hc]
            congr 1
            omega

/-- One CDC dispatch pass never records the same invocation twice: the
recorded indices strictly follow the vector's positions. -/
theorem nodup_firedUnderAux (k : PostgresChangesEvent) (msg : RealtimeMessage)
    (i : Nat) (l : List CdcCallback) : (firedUnderAux k msg i l).Nodup := by
  induction l generalizing i with
  | nil => simp [firedUnderAux]
  | cons cb rest ih =>
      simp only [firedUnderAux]
      by_cases hchk : cb.1.check msg
      · rw [if_pos hchk]
        simp only [List.singleton_append, List.nodup_cons]
        refine ⟨fun hmem => ?_, ih (i + 1)⟩
        rcases (mem_firedUnderAux_iff k msg (i + 1) rest _).mp hmem with ⟨m, f, cbId, hc, _, _⟩
        injection hc with hk hi hcb
        omega
      · rw [if_neg hchk]
        simpa using ih (i + 1)

/-- Every invocation recorded by a dispatch pass for key `k` is a CDC
invocation tagged with that key. -/
theorem key_of_mem_firedUnder {k : PostgresChangesEvent} {cdc : CdcRegistry}
    {msg : RealtimeMessage} {c : Fired} (h : c ∈ firedUnder k cdc msg) :
    ∃ j cbId, c = Fired.cdcCb k j cbId := by
  unfold firedUnder at h
  rcases (mem_firedUnderAux_iff k msg 0 _ c).mp h with ⟨m, f, cbId, hc, _, _⟩
  exact ⟨0 + m, cbId, hc⟩

/-- Membership in a full dispatch pass for key `k0`, phrased against the
registry lookup. -/
theorem mem_firedUnder_iff (k0 k : PostgresChangesEvent) (cdc : CdcRegistry)
    (msg : RealtimeMessage) (i cbId : Nat) :
    Fired.cdcCb k i cbId ∈ firedUnder k0 cdc msg ↔
      (k = k0 ∧ ∃ f, (lookupReg cdc k0).get? i = some (f, cbId) ∧ f.check msg = true) := by
  unfold firedUnder
  rw [mem_firedUnderAux_iff]
  constructor
  · rintro ⟨m, f, cbId', hc, hget, hchk⟩
    injection hc with hk hi hcb
    subst hk
    subst hcb
    refine ⟨rfl, f, ?_, hchk⟩
    rw [hi]
    simpa using hget
  · rintro ⟨rfl, f, hget, hchk⟩
    exact ⟨i, f, cbId, by simp, hget, hchk⟩

end RealtimeRs

namespace RealtimeRs

/-- C9 counterexample: an inbound change whose own change type is the
wildcard `All`, with a single callback (id 7) registered once under the
`All` key behind an accepting filter: both dispatch passes hit the same
registry key, so that one registration fires twice for the one message —
refuting the claim that each registration fires at most once per
message. -/
theorem c9_counterexample :
    dispatchPostgres
      [(PostgresChangesEvent.All,
        [({ schema := "public", table := none, filter := none }, 7)])]
      { event := MessageEvent.postgresChanges, topic := "realtime:room:1",
        payload := Payload.postgresChanges
          { data := { change_type := PostgresChangesEvent.All, schema := "public",
                      table := "todos", filterMeta := none } },
        message_ref := none }
      { data := { change_type := PostgresChangesEvent.All, schema := "public",
                  table := "todos", filterMeta := none } }
      = [Fired.cdcCb PostgresChangesEvent.All 0 7,
         Fired.cdcCb PostgresChangesEvent.All 0 7] ∧
    ¬ (dispatchPostgres
        [(PostgresChangesEvent.All,
          [({ schema := "public", table := none, filter := none }, 7)])]
        { event := MessageEvent.postgresChanges, topic := "realtime:room:1",
          payload := Payload.postgresChanges
            { data := { change_type := PostgresChangesEvent.All, schema := "public",
                        table := "todos", filterMeta := none } },
          message_ref := none }
        { data := { change_type := PostgresChangesEvent.All, schema := "public",
                    table := "todos", filterMeta := none } }).Nodup := by
  constructor
  · decide
  · decide

/-- C9 amended: for an inbound `PostgresChange` whose own change type is
not the wildcard `All`, the dispatch loop fires exactly the registrations
found under the payload's change type and under the wildcard key whose
stored filter accepts the message, and each registration (registry key
plus vector index) fires at most once — the fired list has no
duplicates.  (A callback closure registered under both its specific event
and the wildcard is two registrations and may fire twice overall; when
the change type is `All` itself, both passes hit the `All` key and its
registrations fire twice.) -/
theorem c9_cdc_dispatch :
    ∀ (cdc : CdcRegistry) (msg : RealtimeMessage) (p : PostgresChangesPayload),
    p.data.change_type ≠ PostgresChangesEvent.All →
    (dispatchPostgres cdc msg p).Nodup ∧
    (∀ (k : PostgresChangesEvent) (i cbId : Nat),
      Fired.cdcCb k i cbId ∈ dispatchPostgres cdc msg p ↔
        ((k = p.data.change_type ∨ k = PostgresChangesEvent.All) ∧
          ∃ f, (lookupReg cdc k).get? i = some (f, cbId) ∧ f.check msg = true)) := by
  intro cdc msg p hA
  constructor
  · unfold dispatchPostgres firedUnder
    refine List.Nodup.append (nodup_firedUnderAux _ _ _ _) (nodup_firedUnderAux _ _ _ _) ?_
    intro c hc1 hc2
    rcases key_of_mem_firedUnder hc1 with ⟨j1, id1, rfl⟩
    rcases key_of_mem_firedUnder hc2 with ⟨j2, id2, he⟩
    injection he with hk hj hid
    exact hA hk
  · intro k i cbId
    unfold dispatchPostgres
    rw [List.mem_append, mem_firedUnder_iff, mem_firedUnder_iff]
    constructor
    · rintro (⟨rfl, hf⟩ | ⟨rfl, hf⟩)
      · exact ⟨Or.inl rfl, hf⟩
      · exact ⟨Or.inr rfl, hf⟩
    · rintro ⟨hk | hk, hf⟩
      · subst hk
        exact Or.inl ⟨rfl, hf⟩
      · subst hk
        exact Or.inr ⟨rfl, hf⟩

/-- C9 amended witness: the concrete registry holding callback 3 under
`Insert` and callback 5 under the wildcard, receiving an `Insert`
change. -/
theorem c9_cdc_dispatch_witness :
    (dispatchPostgres
      [(PostgresChangesEvent.Insert,
        [({ schema := "public", table := some "todos", filter := none }, 3)]),
       (PostgresChangesEvent.All,
        [({ schema := "public", table := none, filter := none }, 5)])]
      { event := MessageEvent.postgresChanges, topic := "realtime:room:1",
        payload := Payload.postgresChanges
          { data := { change_type := PostgresChangesEvent.Insert, schema := "public",
                      table := "todos", filterMeta := none } },
        message_ref := none }
      { data := { change_type := PostgresChangesEvent.Insert, schema := "public",
                  table := "todos", filterMeta := none } }).Nodup ∧
    (∀ (k : PostgresChangesEvent) (i cbId : Nat),
      Fired.cdcCb k i cbId ∈
        dispatchPostgres
          [(PostgresChangesEvent.Insert,
            [({ schema := "public", table := some "todos", filter := none }, 3)]),
           (PostgresChangesEvent.All,
            [({ schema := "public", table := none, filter := none }, 5)])]
          { event := MessageEvent.postgresChanges, topic := "realtime:room:1",
            payload := Payload.postgresChanges
              { data := { change_type := PostgresChangesEvent.Insert, schema := "public",
                          table := "todos", filterMeta := none } },
            message_ref := none }
          { data := { change_type := PostgresChangesEvent.Insert, schema := "public",
                      table := "todos", filterMeta := none } } ↔
        ((k = PostgresChangesEvent.Insert ∨ k = PostgresChangesEvent.All) ∧
          ∃ f : PostgresChangeFilter, (lookupReg
              ([(PostgresChangesEvent.Insert,
                 [({ schema := "public", table := some "todos", filter := none }, 3)]),
                (PostgresChangesEvent.All,
                 [({ schema := "public", table := none, filter := none }, 5)])] :
                CdcRegistry) k).get? i
              = some (f, cbId) ∧
            f.check
              { event := MessageEvent.postgresChanges, topic := "realtime:room:1",
                payload := Payload.postgresChanges
                  { data := { change_type := PostgresChangesEvent.Insert, schema := "public",
                              table := "todos", filterMeta := none } },
                message_ref := none } = true)) :=
  c9_cdc_dispatch
    [(PostgresChangesEvent.Insert,
      [({ schema := "public", table := some "todos", filter := none }, 3)]),
     (PostgresChangesEvent.All,
      [({ schema := "public", table := none, filter := none }, 5)])]
    { event := MessageEvent.postgresChanges, topic := "realtime:room:1",
      payload := Payload.postgresChanges
        { data := { change_type := PostgresChangesEvent.Insert, schema := "public",
                    table := "todos", filterMeta := none } },
      message_ref := none }
    { data := { change_type := PostgresChangesEvent.Insert, schema := "public",
                table := "todos", filterMeta := none } }
    (by decide)

end RealtimeRs
